import Mathlib

/-!
Verification of the midilifx core against its specification.

Shallow embedding of the repository's Python sources:
  * `colors.py`  — pure color mapping (`note_to_hsl`, `pitch_to_temp`);
  * `lights.py`  — the `LifxLight` actuator scheduler (target bulb state,
    rate-limited coalescing dispatch, shutdown);
  * `midi.py`    — the `midi_light` event router.

Machine reals: the Python code computes `(pitch + 8192) / 16384 * (max - min)`
in IEEE double precision.  For `pitch ∈ [-8192, 8192]` the division by the
power of two `16384` is exact and the subsequent product has numerator below
`2^27`, so every intermediate double is exactly the rational value; the model
therefore uses exact rationals and integers.  Python's `int()` truncates
toward zero, which on the non-negative intermediate equals floor division.
-/

namespace Midilifx

/-- Newton color-circle hues, indexed by pitch class `midi_note % 12` in the
order C, C#, D, D#, E, F, F#, G, G#, A, A#, B (from `NEWTON_HUES` /
`NOTE_NAMES` in `colors.py`). -/
def NEWTON_HUES : List ℤ :=
  [285, 300, 330, 0, 15, 45, 60, 90, 120, 180, 240, 255]

/-- `TOTAL_NOTES = len(NOTE_NAMES)` in `colors.py`. -/
def TOTAL_NOTES : ℕ := 12

/-- `HSLColor` from `colors.py`: hue 0–360, saturation 0–100, lightness
0–100.  Saturation and lightness are produced by exact float divisions in the
source, modelled as rationals. -/
structure HSLColor where
  hue : ℤ
  saturation : ℚ
  lightness : ℚ
deriving DecidableEq

/-- `note_to_hsl` from `colors.py`: hue from the Newton table by pitch class,
saturation `velocity / 127 * 100`, lightness `octave / 11 * 100` with
`octave = midi_note // 12 + 1`. -/
def note_to_hsl (midi_note velocity : ℕ) : HSLColor :=
  { hue := NEWTON_HUES.getD (midi_note % TOTAL_NOTES) 0
    saturation := (velocity : ℚ) / 127 * 100
    lightness := ((midi_note / TOTAL_NOTES + 1 : ℕ) : ℚ) / 11 * 100 }

/-- The value computed by `pitch_to_temp` in `colors.py` once its assertion
has passed: `9000 - int((pitch + 8192) / 16384 * (9000 - 2500))`.  The float
arithmetic is exact (see file header) and `int()` truncates the non-negative
intermediate, i.e. floor division. -/
def pitch_to_temp_val (pitch : ℤ) : ℤ :=
  9000 - (pitch + 8192) * (9000 - 2500) / 16384

/-- `pitch_to_temp` from `colors.py`.  The function takes only `pitch`; the
temperature range `2500..9000` is hard-coded in its body.  The leading
`assert -8192 <= pitch <= 8192` is modelled by returning `none` (an
`AssertionError`) outside that interval. -/
def pitch_to_temp (pitch : ℤ) : Option ℤ :=
  if -8192 ≤ pitch ∧ pitch ≤ 8192 then some (pitch_to_temp_val pitch) else none

/-! ## `lights.py`: the `LifxLight` actuator scheduler

`BulbState` and the mutating methods of `LifxLight` are translated directly.
The asyncio machinery is modelled by explicit state:

  * `_scheduled_update` being a live (not yet done) future becomes the
    Boolean `pending`; `_update_later` completing (after its sleep) becomes
    the `fire_timer` step, which sets `needs_update` and makes the future
    done;
  * one iteration of `_update_bulb_forever` past its
    `await state.needs_update.wait()` becomes the `loop_wake` step: it
    clears the event, sends `state.lifx_compat_color` plus
    `state.transition_duration` read from the live state, and stamps
    `last_update`;
  * commands handed to `Light.fire_and_forget` are recorded in the `sent`
    log.

Python's `round` is round-half-to-even, modelled exactly by `pyRound`. -/

/-- Python 3 `round` on an exact rational: nearest integer, ties to even. -/
def pyRound (q : ℚ) : ℤ :=
  let f : ℤ := ⌊q⌋
  let r : ℚ := q - f
  if r < 1/2 then f
  else if 1/2 < r then f + 1
  else if f % 2 = 0 then f else f + 1

/-- One fire-and-forget `LightSetColor` command as built in
`_update_bulb_forever`: the `lifx_compat_color` 4-tuple plus the duration. -/
structure Command where
  hue : ℤ
  saturation : ℤ
  lightness : ℤ
  kelvin : ℤ
  duration : ℤ
deriving DecidableEq

/-- `BulbState` from `lights.py` (the `needs_update` asyncio event is the
Boolean of whether it is set). -/
structure BulbState where
  color : HSLColor
  temperature : ℤ
  transition_duration : ℤ
  last_update : ℚ
  needs_update : Bool
deriving DecidableEq

/-- `BulbState.lifx_compat_color` together with the duration: the payload of
the command sent by `_update_bulb_forever`. -/
def BulbState.command (b : BulbState) : Command :=
  { hue := pyRound ((b.color.hue : ℚ) * 65535 / 360)
    saturation := pyRound (b.color.saturation * 65535 / 100)
    lightness := pyRound (b.color.lightness * 65535 / 100)
    kelvin := b.temperature
    duration := b.transition_duration }

/-- `LifxLight.DEFAULT_OFF_COLOR`: hue `RED = 0`, saturation 0, lightness 0. -/
def DEFAULT_OFF_COLOR : HSLColor := { hue := 0, saturation := 0, lightness := 0 }

/-- The model of a `LifxLight` object: its `BulbState`, the `_running` flag,
whether a live `_scheduled_update` future exists, and the log of commands
sent to the bulb. -/
structure LifxLight where
  state : BulbState
  running : Bool
  pending : Bool
  sent : List Command
deriving DecidableEq

namespace LifxLight

/-- `LifxLight.__init__`: raises `ValueError` on a negative initial
transition duration, else builds the initial state (color off, temperature
`pitch_to_temp(0)`, no pending update, update task waiting). -/
def init (initial_transition_duration : ℤ) (t0 : ℚ) : Except String LifxLight :=
  if initial_transition_duration < 0 then
    .error "Transition duration must be positive"
  else
    .ok { state := { color := DEFAULT_OFF_COLOR
                     temperature := pitch_to_temp_val 0
                     transition_duration := initial_transition_duration
                     last_update := t0
                     needs_update := false }
          running := true
          pending := false
          sent := [] }

/-- `LifxLight._schedule_update`: if a live scheduled update exists, return;
otherwise schedule one (the delay only affects timing, not which commands are
sent, so it is not tracked). -/
def schedule_update (s : LifxLight) : LifxLight :=
  if s.pending then s else { s with pending := true }

/-- `LifxLight.set_color`: `None` means the off color; no-op when equal to
the current color, otherwise store it and schedule an update. -/
def set_color (value : Option HSLColor) (s : LifxLight) : LifxLight :=
  let v := value.getD DEFAULT_OFF_COLOR
  if v = s.state.color then s
  else schedule_update { s with state := { s.state with color := v } }

/-- `LifxLight.set_temperature`: no-op when equal to the current
temperature, otherwise store it and schedule an update. -/
def set_temperature (value : ℤ) (s : LifxLight) : LifxLight :=
  if value = s.state.temperature then s
  else schedule_update { s with state := { s.state with temperature := value } }

/-- `LifxLight.set_transition_duration`: unconditionally store the value;
never schedules an update. -/
def set_transition_duration (value : ℤ) (s : LifxLight) : LifxLight :=
  { s with state := { s.state with transition_duration := value } }

/-- `_update_later` completing: the scheduled future becomes done and
`needs_update` is set. -/
def fire_timer (s : LifxLight) : LifxLight :=
  { s with pending := false
           state := { s.state with needs_update := true } }

/-- One iteration of `_update_bulb_forever` past its wait: clear the event,
send the live state as a command, stamp `last_update = time.time()`. -/
def loop_wake (now : ℚ) (s : LifxLight) : LifxLight :=
  { s with state := { s.state with needs_update := false, last_update := now }
           sent := s.sent ++ [s.state.command] }

/-- The interleaved atomic steps that can happen to a `LifxLight` while the
router runs: the three mutators, a scheduled timer firing, and the update
loop waking on a set event. -/
inductive Step : LifxLight → LifxLight → Prop
  | setColor (s : LifxLight) (v : Option HSLColor) : Step s (set_color v s)
  | setTemperature (s : LifxLight) (k : ℤ) : Step s (set_temperature k s)
  | setTransitionDuration (s : LifxLight) (d : ℤ) :
      Step s (set_transition_duration d s)
  | fire (s : LifxLight) (h : s.pending = true) : Step s (fire_timer s)
  | wake (s : LifxLight) (now : ℚ) (h : s.state.needs_update = true) :
      Step s (loop_wake now s)

/-- States reachable from `s0` by any interleaving of steps. -/
inductive Reach (s0 : LifxLight) : LifxLight → Prop
  | refl : Reach s0 s0
  | tail {s t : LifxLight} : Reach s0 s → Step s t → Reach s0 t

/-- `LifxLight.__aexit__`: clear `_running`, force the off color, await the
outstanding scheduled update if any (letting it set `needs_update`), after
which the update loop drains the event with a final send and exits. -/
def aexit (now : ℚ) (s : LifxLight) : LifxLight :=
  let s1 := set_color none { s with running := false }
  let s2 := if s1.pending then fire_timer s1 else s1
  if s2.state.needs_update then loop_wake now s2 else s2

end LifxLight

/-! ## `midi.py`: the `midi_light` event router

`midi_light` consumes mido messages; each iteration of its `async for` body
is `midi_light_step`.  The dict `currently_playing` is insertion-ordered
(Python dict semantics), modelled as an association list where assignment to
an existing key updates it in place and a new key is appended.

The pitchwheel arm of the `match` calls
`pitch_to_temp(pitch=..., min_temp=light.product.min_kelvin,
max_temp=light.product.max_kelvin)`, but `pitch_to_temp` in `colors.py`
accepts only the `pitch` parameter, so this call raises `TypeError` for
every pitchwheel event; the arm is embedded as that error. -/

/-- `MIDI_CC_MODULATION` from `midi.py`. -/
def MIDI_CC_MODULATION : ℕ := 1

/-- A mido message as seen by `midi_light`: its `type` plus the attributes
each arm reads.  `other` covers every other message type; its channel is
optional because some messages (e.g. sysex) have no `channel` attribute, in
which case `getattr(evt, "channel", None)` yields `None`. -/
inductive MidiEvent
  | note_on (channel note velocity : ℕ)
  | note_off (channel note velocity : ℕ)
  | pitchwheel (channel : ℕ) (pitch : ℤ)
  | control_change (channel control value : ℕ)
  | other (channel : Option ℕ)
deriving DecidableEq

/-- `getattr(evt, "channel", None)`. -/
def MidiEvent.channel : MidiEvent → Option ℕ
  | .note_on ch _ _ => some ch
  | .note_off ch _ _ => some ch
  | .pitchwheel ch _ => some ch
  | .control_change ch _ _ => some ch
  | .other ch => ch

/-- A Python exception escaping the router body. -/
inductive PyError
  | typeError
deriving DecidableEq

/-- One call made to a `LifxLight` mutator, recorded for observation. -/
inductive SchedCall
  | setColor (value : Option HSLColor)
  | setTemperature (value : ℤ)
  | setTransitionDuration (value : ℤ)
deriving DecidableEq

/-- `currently_playing[note] = velocity` on an insertion-ordered dict:
update in place when present, append when absent. -/
def dictSet (l : List (ℕ × ℕ)) (note velocity : ℕ) : List (ℕ × ℕ) :=
  match l with
  | [] => [(note, velocity)]
  | (k, v) :: rest =>
      if k = note then (k, velocity) :: rest
      else (k, v) :: dictSet rest note velocity

/-- `currently_playing.pop(note, None)`: remove the key if present. -/
def dictPop (l : List (ℕ × ℕ)) (note : ℕ) : List (ℕ × ℕ) :=
  match l with
  | [] => []
  | (k, v) :: rest => if k = note then rest else (k, v) :: dictPop rest note

/-- The result of one router iteration: the updated `currently_playing`
dict, the updated light, and the mutator calls made, in order. -/
structure RouterResult where
  playing : List (ℕ × ℕ)
  light : LifxLight
  calls : List SchedCall
deriving DecidableEq

/-- The code after the `match` in `midi_light`'s loop body: set the color to
the first currently playing note's color, or to the off color (`None`) when
no note plays. -/
def recompute (playing : List (ℕ × ℕ)) (light : LifxLight) : RouterResult :=
  match playing.head? with
  | some (note, velocity) =>
      { playing
        light := light.set_color (some (note_to_hsl note velocity))
        calls := [.setColor (some (note_to_hsl note velocity))] }
  | none =>
      { playing
        light := light.set_color none
        calls := [.setColor none] }

/-- One iteration of the `async for` body of `midi_light` in `midi.py`:
channel filter, the `match` on the message, and the color recomputation for
the arms that do not `continue`. -/
def midi_light_step (channels : List ℕ) (playing : List (ℕ × ℕ))
    (light : LifxLight) (evt : MidiEvent) : Except PyError RouterResult :=
  match evt.channel with
  | none => .ok { playing, light, calls := [] }
  | some ch =>
    if ch ∈ channels then
      match evt with
      | .note_on _ note velocity =>
          if velocity ≠ 0 then
            .ok (recompute (dictSet playing note velocity) light)
          else
            -- velocity 0 fails the guard `if evt.velocity`, reaching
            -- `case _: continue`
            .ok { playing, light, calls := [] }
      | .note_off _ note _ =>
          .ok (recompute (dictPop playing note) light)
      | .pitchwheel _ _ =>
          -- pitch_to_temp(pitch=..., min_temp=..., max_temp=...):
          -- unexpected keyword arguments min_temp and max_temp
          .error .typeError
      | .control_change _ control value =>
          if control = MIDI_CC_MODULATION then
            .ok { playing
                  light := light.set_transition_duration (value * 4)
                  calls := [.setTransitionDuration (value * 4)] }
          else
            .ok { playing, light, calls := [] }
      | .other _ => .ok { playing, light, calls := [] }
    else
      .ok { playing, light, calls := [] }

/-- Folding `midi_light_step` over a list of events: the `async for` loop of
`midi_light`, stopping at the first escaping exception. -/
def midi_light_run (channels : List ℕ) (playing : List (ℕ × ℕ))
    (light : LifxLight) : List MidiEvent → Except PyError (List (ℕ × ℕ) × LifxLight)
  | [] => .ok (playing, light)
  | evt :: rest =>
      match midi_light_step channels playing light evt with
      | .error e => .error e
      | .ok r => midi_light_run channels r.playing r.light rest

/-! ## Definitions used by the statements and proofs -/

/-- The command `c` carries exactly the `lifx_compat_color` encoding of the
HSL color `col`. -/
def Command.matchesColor (c : Command) (col : HSLColor) : Prop :=
  c.hue = pyRound ((col.hue : ℚ) * 65535 / 360) ∧
  c.saturation = pyRound (col.saturation * 65535 / 100) ∧
  c.lightness = pyRound (col.lightness * 65535 / 100)

/-- Invariant of the scheduler: whenever no scheduled update is outstanding
and the dispatch event is clear, every requested change has been flushed —
either nothing was ever sent, or the last sent command carries the current
color. -/
def LifxLight.Flushed (s : LifxLight) : Prop :=
  s.pending = false → s.state.needs_update = false →
    s.sent = [] ∨ ∃ c, s.sent.getLast? = some c ∧ c.matchesColor s.state.color

/-- The `LifxLight` state right after `LifxLight.__init__(0)` at time 0. -/
def L0 : LifxLight :=
  { state := { color := DEFAULT_OFF_COLOR
               temperature := pitch_to_temp_val 0
               transition_duration := 0
               last_update := 0
               needs_update := false }
    running := true
    pending := false
    sent := [] }

/-- A sample non-off color (only the hue differs from the off color). -/
def sampleA : HSLColor := { hue := 120, saturation := 0, lightness := 0 }

/-- A second sample non-off color, distinct from `sampleA`. -/
def sampleB : HSLColor := { hue := 240, saturation := 0, lightness := 0 }

/-- A reachable scheduler state with one color change still pending. -/
def sW : LifxLight := LifxLight.set_color (some sampleA) L0

/-- The command that the drained shutdown path sends from `sW`: the off
color with the initial temperature and duration. -/
def cW : Command :=
  { hue := 0, saturation := 0, lightness := 0
    kelvin := pitch_to_temp_val 0, duration := 0 }

/-! ## Theorems -/

/-- C8: `pitch_to_temp` fails with a domain error (its assertion) for every
pitch outside `[-8192, 8192]`, and returns normally for every pitch inside
that interval. -/
theorem pitch_to_temp_domain (p : ℤ) :
    (pitch_to_temp p).isSome = true ↔ (-8192 ≤ p ∧ p ≤ 8192) := by
  unfold pitch_to_temp
  split <;> simp_all

/-- C5 counterexample: at pitch `-8190` the code returns `9000`, while the
claim's round-to-nearest formula
`9000 - round((pitch + 8192) / 16384 * (9000 - 2500))` yields `8999`; the
code truncates (`int(...)`), it does not round to nearest. -/
theorem pitch_to_temp_not_round :
    pitch_to_temp (-8190) = some 9000 ∧
    9000 - round (((-8190 : ℤ) + 8192 : ℚ) / 16384 * (9000 - 2500)) = (8999 : ℤ) ∧
    pitch_to_temp (-8190) ≠
      some (9000 - round (((-8190 : ℤ) + 8192 : ℚ) / 16384 * (9000 - 2500))) := by
  refine ⟨by decide, ?_, ?_⟩
  · norm_num [round_eq]
  · have h : round (((-8190 : ℤ) + 8192 : ℚ) / 16384 * (9000 - 2500)) = 1 := by
      norm_num [round_eq]
    rw [h]
    decide

/-- C5 as amended: for every pitch in `[-8192, 8192]`,
`pitch_to_temp` equals `9000 - (pitch + 8192) * (9000 - 2500) / 16384` with
the fractional intermediate value truncated (floor division on the
non-negative intermediate), not rounded to nearest; `-8192` gives `9000`,
`0` gives the midpoint `5750`, and `8192` gives `2500`. -/
theorem pitch_to_temp_floor_formula :
    (∀ p : ℤ, -8192 ≤ p → p ≤ 8192 →
      pitch_to_temp p = some (9000 - (p + 8192) * (9000 - 2500) / 16384)) ∧
    pitch_to_temp (-8192) = some 9000 ∧
    pitch_to_temp 0 = some 5750 ∧
    pitch_to_temp 8192 = some 2500 := by
  refine ⟨?_, by decide, by decide, by decide⟩
  intro p h1 h2
  simp [pitch_to_temp, pitch_to_temp_val, h1, h2]

/-- Witness for C5's amended theorem at pitch `100`. -/
theorem pitch_to_temp_floor_formula_witness :
    pitch_to_temp 100 = some (9000 - (100 + 8192) * (9000 - 2500) / 16384) ∧
    pitch_to_temp 100 = some 5711 :=
  ⟨pitch_to_temp_floor_formula.1 100 (by decide) (by decide), by decide⟩

/-- C7: calling `set_color` with a value equal to the current color (with
`None` standing for the off color) or `set_temperature` with the current
temperature is a complete no-op: the state — every field, the pending
update slot and the send log included — is returned unchanged. -/
theorem set_color_set_temperature_idempotent
    (s : LifxLight) (v : Option HSLColor) (k : ℤ) :
    (v.getD DEFAULT_OFF_COLOR = s.state.color → LifxLight.set_color v s = s) ∧
    (k = s.state.temperature → LifxLight.set_temperature k s = s) := by
  constructor
  · intro h
    simp [LifxLight.set_color, h]
  · intro h
    simp [LifxLight.set_temperature, h]

/-- Witness for C7: on the freshly initialized light, `set_color(None)` and
`set_temperature(pitch_to_temp(0))` both leave the state untouched. -/
theorem set_color_set_temperature_idempotent_witness :
    LifxLight.set_color none L0 = L0 ∧
    LifxLight.set_temperature (pitch_to_temp_val 0) L0 = L0 :=
  ⟨(set_color_set_temperature_idempotent L0 none (pitch_to_temp_val 0)).1 rfl,
   (set_color_set_temperature_idempotent L0 none (pitch_to_temp_val 0)).2 rfl⟩

/-- C10: `set_transition_duration` stores any integer value, negative ones
included, without raising; it changes no other field and schedules nothing.
Non-negativity is enforced only at construction: `__init__` raises
`ValueError` exactly when the initial transition duration is negative. -/
theorem set_transition_duration_total :
    (∀ (d : ℤ) (s : LifxLight),
      (LifxLight.set_transition_duration d s).state.transition_duration = d ∧
      (LifxLight.set_transition_duration d s).state.color = s.state.color ∧
      (LifxLight.set_transition_duration d s).state.temperature = s.state.temperature ∧
      (LifxLight.set_transition_duration d s).state.last_update = s.state.last_update ∧
      (LifxLight.set_transition_duration d s).state.needs_update = s.state.needs_update ∧
      (LifxLight.set_transition_duration d s).pending = s.pending ∧
      (LifxLight.set_transition_duration d s).sent = s.sent) ∧
    (∀ (d : ℤ) (t0 : ℚ), (LifxLight.init d t0).isOk = true ↔ 0 ≤ d) := by
  constructor
  · intro d s
    simp [LifxLight.set_transition_duration]
  · intro d t0
    by_cases hd : d < 0
    · simp [LifxLight.init, hd, Except.isOk, Except.toBool]
    · simp [LifxLight.init, hd, Except.isOk, Except.toBool]
      omega

/-- C9: an event whose channel is not in the configured channel set (or
which has no channel attribute) produces zero scheduler calls and leaves
both the active-note dict and the light untouched. -/
theorem channel_filtering (channels : List ℕ) (playing : List (ℕ × ℕ))
    (light : LifxLight) (evt : MidiEvent)
    (h : ∀ ch, evt.channel = some ch → ch ∉ channels) :
    midi_light_step channels playing light evt = .ok ⟨playing, light, []⟩ := by
  unfold midi_light_step
  rcases hch : evt.channel with _ | ch
  · rfl
  · simp [h ch hch]

/-- Witness for C9: a note-on on channel 1 while only channel 0 is
configured does nothing. -/
theorem channel_filtering_witness :
    midi_light_step [0] [(60, 100)] L0 (.note_on 1 64 90) =
      .ok ⟨[(60, 100)], L0, []⟩ :=
  channel_filtering [0] [(60, 100)] L0 (.note_on 1 64 90)
    (by intro ch hch; simp [MidiEvent.channel] at hch; subst hch; decide)

/-- C1 (code bug): on every pitch-bend event the router raises `TypeError`
instead of calling `set_temperature`: `midi.py` passes `min_temp` and
`max_temp` keyword arguments that `pitch_to_temp` in `colors.py` does not
accept.  Evaluated here at a pitchwheel event with pitch 0 on channel 0. -/
theorem pitchwheel_event_raises_type_error :
    midi_light_step [0] [] L0 (.pitchwheel 0 0) = .error .typeError := by
  rfl

/-- Two HSL colors with different hues are different. -/
theorem hsl_ne_of_hue_ne {a b : HSLColor} (h : a.hue ≠ b.hue) : a ≠ b :=
  fun e => h (e ▸ rfl)

/-- C2 counterexample: with note 60 held, a note-on for note 64 with
velocity 0 on a listened channel falls into the `case _: continue` arm: the
router makes zero scheduler calls — in particular no `set_color` — where
the claim requires a recompute ending in a `set_color` call. -/
theorem note_on_velocity_zero_no_recompute :
    midi_light_step [0] [(60, 100)] L0 (.note_on 0 64 0) =
      .ok ⟨[(60, 100)], L0, []⟩ := by
  rfl

/-- C2 as amended: only a filtered note-on with velocity > 0 and a filtered
note-off reach the recompute, which performs exactly one `set_color` call —
with the earliest-held note's color when the dict is non-empty and with
`None` otherwise.  A filtered note-on with velocity 0 and a filtered event
of any other kind short-circuit with no tracker mutation and zero scheduler
calls. -/
theorem router_recompute_rule (channels : List ℕ) (playing : List (ℕ × ℕ))
    (light : LifxLight) (ch note velocity : ℕ) (h : ch ∈ channels) :
    (velocity ≠ 0 →
      midi_light_step channels playing light (.note_on ch note velocity) =
        .ok (recompute (dictSet playing note velocity) light)) ∧
    (midi_light_step channels playing light (.note_off ch note velocity) =
      .ok (recompute (dictPop playing note) light)) ∧
    (midi_light_step channels playing light (.note_on ch note 0) =
      .ok ⟨playing, light, []⟩) ∧
    (midi_light_step channels playing light (.other (some ch)) =
      .ok ⟨playing, light, []⟩) ∧
    (∀ p : List (ℕ × ℕ), recompute p light =
      ⟨p, light.set_color (p.head?.map fun nv => note_to_hsl nv.1 nv.2),
        [.setColor (p.head?.map fun nv => note_to_hsl nv.1 nv.2)]⟩) := by
  refine ⟨?_, ?_, ?_, ?_, ?_⟩
  · intro hv
    simp [midi_light_step, MidiEvent.channel, h, hv]
  · simp [midi_light_step, MidiEvent.channel, h]
  · simp [midi_light_step, MidiEvent.channel, h]
  · simp [midi_light_step, MidiEvent.channel, h]
  · intro p
    cases p with
    | nil => rfl
    | cons nv rest => rfl

/-- Witness for C2's amended theorem: a velocity-100 note-on for note 60 on
channel 0 mutates the tracker and triggers the recompute. -/
theorem router_recompute_rule_witness :
    midi_light_step [0] [] L0 (.note_on 0 60 100) =
      .ok (recompute (dictSet [] 60 100) L0) :=
  (router_recompute_rule [0] [] L0 0 60 100 (by decide)).1 (by decide)

/-- C6: the active note used for color selection is the earliest-inserted
note still held.  After note-on 60 (velocity 100) then note-on 64
(velocity 80) the light's color is `note_to_hsl 60 100`; after note-off 60
it is `note_to_hsl 64 80`; after note-off 64 it is the off color.
Re-triggering an already-held note updates its stored velocity without
changing its position in the insertion order. -/
theorem active_note_tie_break :
    ((midi_light_run [0] [] L0 [.note_on 0 60 100, .note_on 0 64 80]).map
        (fun r => r.2.state.color) = .ok (note_to_hsl 60 100)) ∧
    ((midi_light_run [0] [] L0
        [.note_on 0 60 100, .note_on 0 64 80, .note_off 0 60 0]).map
        (fun r => r.2.state.color) = .ok (note_to_hsl 64 80)) ∧
    ((midi_light_run [0] [] L0
        [.note_on 0 60 100, .note_on 0 64 80, .note_off 0 60 0,
         .note_off 0 64 0]).map
        (fun r => r.2.state.color) = .ok DEFAULT_OFF_COLOR) ∧
    (∀ (l : List (ℕ × ℕ)) (note v : ℕ), note ∈ l.map Prod.fst →
      (dictSet l note v).map Prod.fst = l.map Prod.fst ∧
      (dictSet l note v).lookup note = some v) := by
  refine ⟨?_, ?_, ?_, ?_⟩
  · simp [midi_light_run, midi_light_step, MidiEvent.channel, dictSet, dictPop,
          recompute, LifxLight.set_color, LifxLight.schedule_update, L0,
          note_to_hsl, DEFAULT_OFF_COLOR, NEWTON_HUES, TOTAL_NOTES, Except.map]
  · simp [midi_light_run, midi_light_step, MidiEvent.channel, dictSet, dictPop,
          recompute, LifxLight.set_color, LifxLight.schedule_update, L0,
          note_to_hsl, DEFAULT_OFF_COLOR, NEWTON_HUES, TOTAL_NOTES, Except.map]
  · simp [midi_light_run, midi_light_step, MidiEvent.channel, dictSet, dictPop,
          recompute, LifxLight.set_color, LifxLight.schedule_update, L0,
          note_to_hsl, DEFAULT_OFF_COLOR, NEWTON_HUES, TOTAL_NOTES, Except.map]
  · intro l note v h
    induction l with
    | nil => simp at h
    | cons kv rest ih =>
      obtain ⟨k, v0⟩ := kv
      by_cases hk : k = note
      · subst hk
        simp [dictSet, List.lookup]
      · have hmem : note ∈ rest.map Prod.fst := by
          simp at h
          rcases h with h | h
          · exact absurd h.symm hk
          · simpa using h
        have hb : (note == k) = false := beq_eq_false_iff_ne.mpr (Ne.symm hk)
        have hr := ih hmem
        simp [dictSet, hk, List.lookup, hb, hr.1, hr.2]

/-- Witness for C6: re-triggering held note 60 with velocity 90 while
holding 60 then 64 keeps the key order `[60, 64]` and stores velocity 90. -/
theorem active_note_tie_break_witness :
    (dictSet [(60, 100), (64, 80)] 60 90).map Prod.fst = [60, 64] ∧
    (dictSet [(60, 100), (64, 80)] 60 90).lookup 60 = some 90 := by
  have h := active_note_tie_break.2.2.2 [(60, 100), (64, 80)] 60 90 (by decide)
  simpa using h

/-- C4: from a quiescent state (no live scheduled update, dispatch event
clear), `set_color A` then `set_color B` — with `A`, `B` and the current
color pairwise distinct — followed by the single pending timer firing and
the update loop waking sends exactly one command, and that command carries
`B` (with the live temperature and transition duration), never `A`: no
command is sent at request time, and the dispatch reads the live state. -/
theorem coalescing_latest_value (s : LifxLight) (A B : HSLColor) (now : ℚ)
    (hA : A ≠ s.state.color) (hAB : B ≠ A) (_hB : B ≠ s.state.color)
    (hp : s.pending = false) (hn : s.state.needs_update = false) :
    (LifxLight.set_color (some B) (LifxLight.set_color (some A) s)).sent
        = s.sent ∧
    (LifxLight.set_color (some B) (LifxLight.set_color (some A) s)).state.color
        = B ∧
    (LifxLight.loop_wake now (LifxLight.fire_timer
        (LifxLight.set_color (some B) (LifxLight.set_color (some A) s)))).sent =
      s.sent ++
        [{ hue := pyRound ((B.hue : ℚ) * 65535 / 360)
           saturation := pyRound (B.saturation * 65535 / 100)
           lightness := pyRound (B.lightness * 65535 / 100)
           kelvin := s.state.temperature
           duration := s.state.transition_duration }] ∧
    (LifxLight.loop_wake now (LifxLight.fire_timer
        (LifxLight.set_color (some B) (LifxLight.set_color (some A) s)))).pending
        = false ∧
    (LifxLight.loop_wake now (LifxLight.fire_timer
        (LifxLight.set_color (some B)
          (LifxLight.set_color (some A) s)))).state.needs_update = false := by
  simp [LifxLight.set_color, LifxLight.schedule_update, LifxLight.fire_timer,
        LifxLight.loop_wake, BulbState.command, hA, hAB, hp, hn]

/-- Witness for C4 on the freshly initialized light with the two sample
colors: the single dispatched command carries `sampleB`. -/
theorem coalescing_latest_value_witness :
    (LifxLight.loop_wake 1 (LifxLight.fire_timer
        (LifxLight.set_color (some sampleB)
          (LifxLight.set_color (some sampleA) L0)))).sent =
      [{ hue := pyRound ((sampleB.hue : ℚ) * 65535 / 360)
         saturation := pyRound (sampleB.saturation * 65535 / 100)
         lightness := pyRound (sampleB.lightness * 65535 / 100)
         kelvin := pitch_to_temp_val 0
         duration := 0 }] := by
  have h := coalescing_latest_value L0 sampleA sampleB 1
    (hsl_ne_of_hue_ne (by decide)) (hsl_ne_of_hue_ne (by decide))
    (hsl_ne_of_hue_ne (by decide)) rfl rfl
  simpa [L0] using h.2.2.1


theorem pyRound_zero : pyRound 0 = 0 := by
  norm_num [pyRound]

theorem schedule_update_pending (s : LifxLight) :
    (LifxLight.schedule_update s).pending = true := by
  unfold LifxLight.schedule_update
  split <;> simp_all

theorem set_color_of_eq {s : LifxLight} {v : Option HSLColor}
    (h : v.getD DEFAULT_OFF_COLOR = s.state.color) :
    LifxLight.set_color v s = s := by
  simp [LifxLight.set_color, h]

theorem set_color_of_ne {s : LifxLight} {v : Option HSLColor}
    (h : v.getD DEFAULT_OFF_COLOR ≠ s.state.color) :
    LifxLight.set_color v s = LifxLight.schedule_update
      { s with state := { s.state with color := v.getD DEFAULT_OFF_COLOR } } := by
  simp [LifxLight.set_color, h]

theorem schedule_update_state (s : LifxLight) :
    (LifxLight.schedule_update s).state = s.state := by
  unfold LifxLight.schedule_update
  split <;> rfl

theorem schedule_update_sent (s : LifxLight) :
    (LifxLight.schedule_update s).sent = s.sent := by
  unfold LifxLight.schedule_update
  split <;> rfl

theorem matchesColor_off {c : Command}
    (h : c.matchesColor DEFAULT_OFF_COLOR) :
    c.hue = 0 ∧ c.saturation = 0 ∧ c.lightness = 0 := by
  obtain ⟨h1, h2, h3⟩ := h
  simp [DEFAULT_OFF_COLOR, pyRound_zero] at h1 h2 h3
  exact ⟨h1, h2, h3⟩

theorem flushed_set_color {s : LifxLight} (v : Option HSLColor)
    (hf : s.Flushed) : (LifxLight.set_color v s).Flushed := by
  by_cases h : v.getD DEFAULT_OFF_COLOR = s.state.color
  · rw [set_color_of_eq h]
    exact hf
  · rw [set_color_of_ne h]
    intro hp _
    rw [schedule_update_pending] at hp
    cases hp

theorem flushed_set_temperature {s : LifxLight} (k : ℤ)
    (hf : s.Flushed) : (LifxLight.set_temperature k s).Flushed := by
  unfold LifxLight.set_temperature
  split
  · exact hf
  · intro hp _
    rw [schedule_update_pending] at hp
    cases hp

theorem flushed_set_transition_duration {s : LifxLight} (d : ℤ)
    (hf : s.Flushed) : (LifxLight.set_transition_duration d s).Flushed := by
  intro hp hn
  exact hf hp hn

theorem flushed_fire_timer (s : LifxLight) :
    (LifxLight.fire_timer s).Flushed := by
  intro _ hn
  simp [LifxLight.fire_timer] at hn

theorem flushed_loop_wake (s : LifxLight) (now : ℚ) :
    (LifxLight.loop_wake now s).Flushed := by
  intro _ _
  right
  refine ⟨s.state.command, ?_, rfl, rfl, rfl⟩
  simp [LifxLight.loop_wake, List.getLast?_concat]

theorem step_flushed {s t : LifxLight} (h : LifxLight.Step s t)
    (hf : s.Flushed) : t.Flushed := by
  cases h with
  | setColor v => exact flushed_set_color v hf
  | setTemperature k => exact flushed_set_temperature k hf
  | setTransitionDuration d => exact flushed_set_transition_duration d hf
  | fire hp => exact flushed_fire_timer s
  | wake now hn => exact flushed_loop_wake s now

theorem init_flushed {d : ℤ} {t0 : ℚ} {s0 : LifxLight}
    (hinit : LifxLight.init d t0 = .ok s0) : s0.Flushed := by
  unfold LifxLight.init at hinit
  split at hinit
  · cases hinit
  · cases hinit
    intro _ _
    left
    rfl

theorem reach_flushed {d : ℤ} {t0 : ℚ} {s0 s : LifxLight}
    (hinit : LifxLight.init d t0 = .ok s0)
    (h : LifxLight.Reach s0 s) : s.Flushed := by
  induction h with
  | refl => exact init_flushed hinit
  | tail hr hs ih => exact step_flushed hs ih

/-- C3: for every state reachable from construction by any interleaving of
mutator calls, timer firings and dispatch-loop iterations, after the
`__aexit__` teardown (force off color, await the outstanding scheduled
update, final drain of the dispatch event) the last command ever sent to
the device carries the off color: hue 0, saturation 0, lightness 0. -/
theorem shutdown_last_command_off (d : ℤ) (t0 now : ℚ) (s0 s : LifxLight)
    (c : Command) (hinit : LifxLight.init d t0 = .ok s0)
    (hreach : LifxLight.Reach s0 s)
    (hlast : (LifxLight.aexit now s).sent.getLast? = some c) :
    c.hue = 0 ∧ c.saturation = 0 ∧ c.lightness = 0 := by
  have hf : s.Flushed := reach_flushed hinit hreach
  have hf' : LifxLight.Flushed { s with running := false } := by
    intro hp hn
    exact hf hp hn
  simp only [LifxLight.aexit] at hlast
  set s1 := LifxLight.set_color none { s with running := false } with hs1
  have hf1 : s1.Flushed := flushed_set_color none hf'
  have hcol : s1.state.color = DEFAULT_OFF_COLOR := by
    rw [hs1]
    by_cases hc : (none : Option HSLColor).getD DEFAULT_OFF_COLOR =
        ({ s with running := false } : LifxLight).state.color
    · rw [set_color_of_eq hc]
      exact hc.symm
    · rw [set_color_of_ne hc, schedule_update_state]
      rfl
  by_cases hp : s1.pending = true
  · rw [if_pos hp] at hlast
    have hneeds : (LifxLight.fire_timer s1).state.needs_update = true := rfl
    rw [if_pos hneeds] at hlast
    simp only [LifxLight.loop_wake, LifxLight.fire_timer,
      List.getLast?_concat] at hlast
    obtain rfl := Option.some.inj hlast
    simp [BulbState.command, hcol, DEFAULT_OFF_COLOR, pyRound_zero]
  · rw [if_neg hp] at hlast
    by_cases hn : s1.state.needs_update = true
    · rw [if_pos hn] at hlast
      simp only [LifxLight.loop_wake, List.getLast?_concat] at hlast
      obtain rfl := Option.some.inj hlast
      simp [BulbState.command, hcol, DEFAULT_OFF_COLOR, pyRound_zero]
    · rw [if_neg hn] at hlast
      rcases hf1 (by simpa using hp) (by simpa using hn) with hnil | ⟨c', hc', hm⟩
      · rw [hnil] at hlast
        cases hlast
      · rw [hc'] at hlast
        obtain rfl := Option.some.inj hlast
        rw [hcol] at hm
        exact matchesColor_off hm

/-- Witness for C3: from the reachable state `sW` (a color change still
pending), teardown sends exactly the off command `cW`. -/
theorem shutdown_last_command_off_witness :
    (LifxLight.aexit 2 sW).sent.getLast? = some cW ∧
    cW.hue = 0 ∧ cW.saturation = 0 ∧ cW.lightness = 0 := by
  have hreach : LifxLight.Reach L0 sW :=
    LifxLight.Reach.tail LifxLight.Reach.refl
      (LifxLight.Step.setColor L0 (some sampleA))
  have hlast : (LifxLight.aexit 2 sW).sent.getLast? = some cW := by
    simp [LifxLight.aexit, sW, L0, sampleA, cW, LifxLight.set_color,
          LifxLight.schedule_update, LifxLight.fire_timer, LifxLight.loop_wake,
          BulbState.command, DEFAULT_OFF_COLOR, pyRound_zero]
  exact ⟨hlast, shutdown_last_command_off 0 0 2 L0 sW cW rfl hreach hlast⟩

end Midilifx
